import Mathlib

/-!
Verification of the Dash financial dashboard
(`src/dash_finance_dashboard.py`) against its natural-language
specification.

The program is shallowly embedded: the pandas DataFrame becomes a list of
`Record`s, each Dash callback becomes a pure Lean function, and the Plotly
figures become plain data structures holding exactly the data the callbacks
feed to the charting library.  Numeric values are modelled as exact
rationals (`ℚ`); Python floats are not modelled bit-for-bit, but every
numeric literal of the dataset is an exact decimal and no rounding
operation in this program ever lands on an exact half, so the rational
model agrees with the float computation on all data that occurs.
-/

set_option maxRecDepth 8000

/-! ## Generic helpers (sorting, rounding, fixed-point formatting) -/

/-- Lexicographic strict comparison of char lists by code point, mirroring
Python / pandas string ordering (used only through `strLe`). -/
def charListLt : List Char → List Char → Bool
  | [], [] => false
  | [], _ :: _ => true
  | _ :: _, [] => false
  | a :: as, b :: bs =>
    if a.toNat < b.toNat then true
    else if b.toNat < a.toNat then false
    else charListLt as bs

/-- Non-strict lexicographic string order by code point. -/
def strLe (a b : String) : Bool := !(charListLt b.data a.data)

/-- Order on (company, metric) pairs: by company first, then metric —
the order pandas gives the pivoted table's column pairs. -/
def pairLe (a b : String × String) : Bool :=
  if charListLt a.1.data b.1.data then true
  else if charListLt b.1.data a.1.data then false
  else strLe a.2 b.2

/-- Insert into a sorted list (auxiliary to `sortBy`). -/
def insertSorted (le : α → α → Bool) (a : α) : List α → List α
  | [] => [a]
  | b :: bs => if le a b then a :: b :: bs else b :: insertSorted le a bs

/-- Insertion sort.  Models `sort_values` / sorted pandas indexes; every
sort in this development is applied to keys without duplicates, so the
choice of sorting algorithm (and stability) is immaterial. -/
def sortBy (le : α → α → Bool) : List α → List α
  | [] => []
  | a :: as => insertSorted le a (sortBy le as)

/-- Round a rational to the nearest integer, halves up: `⌊q + 1/2⌋`
computed on the numerator/denominator.  Python's float formatting and
`round` use round-half-even, but no value arising in this program's data
is an exact half after scaling, so the two agree everywhere they are
applied in this development. -/
def qround (q : ℚ) : ℤ := Int.fdiv (2 * q.num + q.den) (2 * q.den)

/-- Fixed-point decimal rendering with `prec` digits after the point:
the model of Python's `f"{v:.2f}"` format. -/
def formatFixed (prec : Nat) (q : ℚ) : String :=
  let p : Int := (10 : Int) ^ prec
  let n : Int := qround (q * (p : ℚ))
  let sign := if n < 0 then "-" else ""
  let ip := n.natAbs / p.toNat
  let fp := n.natAbs % p.toNat
  let fpStr := toString fp
  let pad := String.mk (List.replicate (prec - fpStr.length) '0')
  sign ++ toString ip ++ "." ++ pad ++ fpStr

/-- Round a rational to `prec` decimal places: the model of
pandas `DataFrame.round(prec)` applied to a cell. -/
def roundTo (prec : Nat) (q : ℚ) : ℚ :=
  (qround (q * (10 : ℚ) ^ prec) : ℚ) / (10 : ℚ) ^ prec

/-! ## Data model — the tidy table (source lines 21–51) -/

/-- One row of the tidy DataFrame `df`: the columns
`Company, Metric, Value, YearLabel, Year` of source lines 48 and 50. -/
structure Record where
  company : String
  metric : String
  value : ℚ
  yearLabel : String
  year : Int
deriving DecidableEq

/-- Source line 21: `years`. -/
def years : List String := ["Mar-21", "Mar-22", "Mar-23", "Mar-24", "Mar-25"]

/-- Source line 22: `year_numbers`. -/
def year_numbers : List Int := [2021, 2022, 2023, 2024, 2025]

/-- Source lines 24–32: the `dixon` dict, as an association list preserving
Python's dict insertion order. -/
def dixon : List (String × List ℚ) := [
  ("Current Ratio", [1.17, 1.15, 1.07, 1.48, 1.33]),
  ("Quick Ratio",   [1.12, 1.14, 1.27, 1.12, 1.01]),
  ("Gross Profit Margin", [4.04, 3.04, 4.33, 3.91, 3.25]),
  ("Net Profit Margin",   [2.48, 1.78, 2.09, 2.08, 2.82]),
  ("Inventory Turnover",  [15.48176253, 10.41597944, 10.42333314, 12.16973252, 12.69463956]),
  ("Asset Turnover",      [2.27, 2.49, 2.60, 2.52, 2.30]),
  ("Trade Receivable Turnover", [11.84, 8.73, 7.93, 8.73, 8.31])]

/-- Source lines 34–42: the `honeywell` dict. -/
def honeywell : List (String × List ℚ) := [
  ("Current Ratio", [2.72, 3.26, 3.41, 3.66, 3.45]),
  ("Quick Ratio",   [2.61, 3.13, 3.22, 3.49, 3.24]),
  ("Gross Profit Margin", [17.75, 12.91, 13.54, 13.20, 12.65]),
  ("Net Profit Margin",   [15.11, 11.50, 12.70, 12.35, 12.49]),
  ("Inventory Turnover",  [31.89, 29.90, 20.94, 25.51, 17.66]),
  ("Asset Turnover",      [1.28, 1.09, 1.14, 1.19, 1.10]),
  ("Trade Receivable Turnover", [3.58, 3.62, 4.28, 4.35, 4.20])]

/-- Source lines 45–50: the `rows` loop — outer loop `enumerate(years)`,
inner loops over `dixon.items()` then `honeywell.items()`.  The `getD`
defaults are never used: every series has exactly `years.length` entries
(Python would raise `IndexError` otherwise). -/
def rows : List Record :=
  years.enum.flatMap fun iy =>
    (dixon.map fun kv =>
      { company := "Dixon", metric := kv.1, value := kv.2.getD iy.1 0,
        yearLabel := iy.2, year := year_numbers.getD iy.1 0 })
    ++ (honeywell.map fun kv =>
      { company := "Honeywell", metric := kv.1, value := kv.2.getD iy.1 0,
        yearLabel := iy.2, year := year_numbers.getD iy.1 0 })

/-- Source line 51: `df = pd.DataFrame(rows)`. -/
def df : List Record := rows

/-- Source lines 54–58: `metric_groups`, an association list preserving
dict insertion order. -/
def metric_groups : List (String × List String) := [
  ("liquidity", ["Current Ratio", "Quick Ratio"]),
  ("profitability", ["Gross Profit Margin", "Net Profit Margin"]),
  ("turnover", ["Inventory Turnover", "Asset Turnover", "Trade Receivable Turnover"])]

/-- Sort records ascending by `Year`: the model of
`sub.sort_values('Year')`.  Within each use the sorted keys are distinct
years, so stability is immaterial (pandas's default quicksort is not
stable either). -/
def sortByYear (rs : List Record) : List Record :=
  sortBy (fun a b => decide (a.year ≤ b.year)) rs

/-- Source lines 61–65: `kpi_latest` — filter to one company and metric,
sort by year, take the last value; `None` when no row matches. -/
def kpi_latest (df_local : List Record) (company metric : String) : Option ℚ :=
  let sub := df_local.filter fun r => r.company == company && r.metric == metric
  if sub.isEmpty then none
  else (sortByYear sub).getLast?.map (·.value)

/-! ## KPI-card callback (source lines 138–168)

The callback's HTML skeleton (colours, layout) is presentation; what the
embedding keeps is exactly the data the callback computes and places into
the cards: the metric name and the formatted value text(s). -/

/-- Value area of a KPI card: either both companies' formatted latest
values side by side (`company == 'Both'`, source lines 148–155) or a
single formatted value (source lines 158–162). -/
inductive KpiValue where
  | both (dixonDisplay honeywellDisplay : String)
  | single (display : String)
deriving DecidableEq

/-- One KPI card: the metric label and its value area. -/
structure KpiCard where
  metric : String
  value : KpiValue
deriving DecidableEq

/-- Format an optional latest value the way the callback does:
`f"{v:.2f}" if v is not None else "—"` (source lines 153–154 and 161). -/
def fmtKpi (v : Option ℚ) : String :=
  match v with
  | some x => formatFixed 2 x
  | none => "—"

/-- Source line 144: the fixed KPI list (6 cards; `Trade Receivable
Turnover` is not included). -/
def kpis : List String :=
  ["Current Ratio", "Quick Ratio", "Gross Profit Margin", "Net Profit Margin",
   "Inventory Turnover", "Asset Turnover"]

/-- Loop body of `update_kpis` (source lines 146–167): build the card for
one metric. -/
def kpiCard (company metric : String) : KpiCard :=
  if company == "Both" then
    { metric := metric,
      value := .both (fmtKpi (kpi_latest df "Dixon" metric))
                     (fmtKpi (kpi_latest df "Honeywell" metric)) }
  else
    { metric := metric, value := .single (fmtKpi (kpi_latest df company metric)) }

/-- Source lines 142–168: the `update_kpis` callback.  Its only Dash input
is the company dropdown (source lines 138–141). -/
def update_kpis (company : String) : List KpiCard :=
  kpis.map (kpiCard company)

/-! ## Chart/table callback (source lines 170–226) -/

/-- One `go.Bar` trace of the main chart: its name, x values
(year labels), y values, and the 2-decimal text labels
(source lines 190–196 and 201–207). -/
structure Trace where
  name : String
  x : List String
  y : List ℚ
  text : List String
deriving DecidableEq

/-- One `go.Scatter` trace of the sparkline (source lines 216 and 219). -/
structure SparkTrace where
  name : String
  x : List String
  y : List ℚ
deriving DecidableEq

/-- The pivoted wide table (source line 224,
`dff.pivot_table(index='YearLabel', columns=['Company','Metric'],
values='Value')`): row keys are the sorted distinct year labels, columns
the sorted distinct (company, metric) pairs, and each cell the mean of the
matching values — `pivot_table`'s default aggregation — or absent (NaN)
when no record matches. -/
structure PivotTable where
  index : List String
  columns : List (String × String)
  cells : List (List (Option ℚ))
deriving DecidableEq

/-- One cell of `pivot_table`: the mean of the values of the records with
the given year label, company and metric, or absent when none match. -/
def pivotCell (rs : List Record) (yl comp metric : String) : Option ℚ :=
  let vs := (rs.filter fun r =>
    r.yearLabel == yl && r.company == comp && r.metric == metric).map (·.value)
  if vs.isEmpty then none else some (vs.sum / (vs.length : ℚ))

/-- The full pivoted table of a record list. -/
def pivotTable (rs : List Record) : PivotTable :=
  let index := sortBy strLe (rs.map (·.yearLabel)).dedup
  let columns := sortBy pairLe (rs.map fun r => (r.company, r.metric)).dedup
  { index := index, columns := columns,
    cells := index.map fun yl => columns.map fun cm => pivotCell rs yl cm.1 cm.2 }

/-- Read one cell of a pivoted table by row key and column pair. -/
def PivotTable.cell (t : PivotTable) (yl : String) (cm : String × String) : Option ℚ :=
  match t.index.indexOf? yl, t.columns.indexOf? cm with
  | some i, some j => (t.cells.getD i []).getD j none
  | _, _ => none

/-- Source line 225: `table_df.round(3)` — round every present cell to 3
decimal places (absent cells stay absent). -/
def PivotTable.round3 (t : PivotTable) : PivotTable :=
  { t with cells := t.cells.map fun row => row.map (Option.map (roundTo 3)) }

/-- The record filter of `update_charts` (source line 182):
`df[(df['Metric'].isin(metrics)) & (df['Year'] >= yr_min) & (df['Year'] <= yr_max)]`. -/
def dff_of (metrics : List String) (yr_min yr_max : Int) : List Record :=
  df.filter fun r =>
    metrics.contains r.metric && decide (yr_min ≤ r.year) && decide (r.year ≤ yr_max)

/-- The spec's `filterByGroupAndRange(groupKey, yearMin, yearMax)`: the
group lookup combined with the record filter of `update_charts`
(source lines 180–182); `none` models the `KeyError` a bad group key
raises at `metric_groups[group]`. -/
def filterByGroupAndRange (group : String) (yr_min yr_max : Int) :
    Option (List Record) :=
  (List.lookup group metric_groups).map fun metrics => dff_of metrics yr_min yr_max

/-- The spec's `seriesFor`: restrict records to one company and metric and
sort ascending by year — the expression
`dff[(dff['Metric'] == metric) & (dff['Company'] == comp)].sort_values('Year')`
of source lines 189, 200, 215 and 218. -/
def seriesFor (rs : List Record) (comp metric : String) : List Record :=
  sortByYear (rs.filter fun r => r.metric == metric && r.company == comp)

/-- Build one main-chart bar trace from a sorted record series
(source lines 190–196 / 201–207). -/
def barTrace (name : String) (s : List Record) : Trace :=
  { name := name, x := s.map (·.yearLabel), y := s.map (·.value),
    text := s.map fun r => formatFixed 2 r.value }

/-- Main-chart trace list (source lines 186–207): one trace per
(metric, company) when both companies are shown — named
`f"{comp} — {metric}"` — else one trace per metric, named by the metric. -/
def buildMainTraces (company : String) (metrics : List String)
    (dff : List Record) : List Trace :=
  if company == "Both" then
    metrics.flatMap fun metric =>
      ["Dixon", "Honeywell"].map fun comp =>
        barTrace (comp ++ " — " ++ metric) (seriesFor dff comp metric)
  else
    metrics.map fun metric => barTrace metric (seriesFor dff company metric)

/-- Sparkline trace list (source lines 211–219): the same series
construction restricted to the `primary` metric (`metrics[0]`), one trace
per company named by the company alone. -/
def buildSparkTraces (company primary : String) (dff : List Record) :
    List SparkTrace :=
  if company == "Both" then
    ["Dixon", "Honeywell"].map fun comp =>
      let s := seriesFor dff comp primary
      { name := comp, x := s.map (·.yearLabel), y := s.map (·.value) }
  else
    let s := seriesFor dff company primary
    [{ name := company, x := s.map (·.yearLabel), y := s.map (·.value) }]

/-- Everything the `update_charts` callback returns, minus pure chart
decoration (layout/margins/bar mode and the main chart's title, none of
which carry data): the main-chart traces, the sparkline traces, the
sparkline title (which names the primary metric, source line 221), and the
rounded pivoted table whose CSV dump is the data-table text
(source lines 224–226). -/
structure ChartsOutput where
  mainTraces : List Trace
  sparkTraces : List SparkTrace
  sparkTitle : String
  table : PivotTable
deriving DecidableEq

/-- Body of `update_charts` after the group's metric list and the primary
metric (`metrics[0]`) have been resolved. -/
def buildCharts (company : String) (metrics : List String) (primary : String)
    (dff : List Record) : ChartsOutput :=
  { mainTraces := buildMainTraces company metrics dff
  , sparkTraces := buildSparkTraces company primary dff
  , sparkTitle := "Trend — " ++ primary
  , table := (pivotTable dff).round3 }

/-- Source lines 178–226: the `update_charts` callback.  `none` models a
raised Python exception: `metric_groups[group]` raises `KeyError` on an
unknown group key (line 180), and `metrics[0]` would raise `IndexError`
on an empty metric list (line 212, unreachable for the fixed groups). -/
def update_charts (company group : String) (year_range : Int × Int) :
    Option ChartsOutput :=
  match List.lookup group metric_groups with
  | none => none
  | some metrics =>
    match metrics.head? with
    | none => none
    | some primary =>
      some (buildCharts company metrics primary
        (dff_of metrics year_range.1 year_range.2))

/-- The whole reactive recomputation triggered by a control change
(source lines 138–141 and 170–177): the two independent Dash callbacks.
`update_kpis` is wired to the company dropdown only; `update_charts` to
all three controls. -/
def dashboard (company group : String) (year_range : Int × Int) :
    List KpiCard × Option ChartsOutput :=
  (update_kpis company, update_charts company group year_range)

/-- Modelled from the spec (for the refinement claim): the "plain
one-record lookup" pivot — each cell is the value of the first (hence,
when keys are unique, the only) record with the given year label, company
and metric.  To be compared with `pivotCell`, the mean-aggregating
`pivot_table` cell taken from the source. -/
def pivotCellLookup (rs : List Record) (yl comp metric : String) : Option ℚ :=
  (rs.find? fun r =>
    r.yearLabel == yl && r.company == comp && r.metric == metric).map (·.value)

/-! ## Helper lemmas -/

/-- The 14 (company, metric) pairs that occur in the dataset. -/
def allPairs : List (String × String) := [
  ("Dixon", "Current Ratio"), ("Dixon", "Quick Ratio"),
  ("Dixon", "Gross Profit Margin"), ("Dixon", "Net Profit Margin"),
  ("Dixon", "Inventory Turnover"), ("Dixon", "Asset Turnover"),
  ("Dixon", "Trade Receivable Turnover"),
  ("Honeywell", "Current Ratio"), ("Honeywell", "Quick Ratio"),
  ("Honeywell", "Gross Profit Margin"), ("Honeywell", "Net Profit Margin"),
  ("Honeywell", "Inventory Turnover"), ("Honeywell", "Asset Turnover"),
  ("Honeywell", "Trade Receivable Turnover")]

lemma pairs_complete : ∀ r ∈ df, (r.company, r.metric) ∈ allPairs := by
  with_unfolding_all decide

lemma companies_complete : ∀ r ∈ df, r.company = "Dixon" ∨ r.company = "Honeywell" := by
  with_unfolding_all decide

lemma df_keys_nodup :
    (df.map fun r => (r.yearLabel, r.company, r.metric)).Nodup := by
  with_unfolding_all decide

lemma kpi_latest_none {c m : String} (h : ∀ r ∈ df, ¬(r.company = c ∧ r.metric = m)) :
    kpi_latest df c m = none := by
  have hf : df.filter (fun r => r.company == c && r.metric == m) = [] := by
    rw [List.filter_eq_nil_iff]
    intro r hr
    simp only [Bool.and_eq_true, beq_iff_eq]
    rintro ⟨h1, h2⟩
    exact h r hr ⟨h1, h2⟩
  unfold kpi_latest
  simp [hf]

lemma dff_of_empty (metrics : List String) {a b : Int} (h : b < a) :
    dff_of metrics a b = [] := by
  unfold dff_of
  rw [List.filter_eq_nil_iff]
  intro r _
  simp only [Bool.and_eq_true, decide_eq_true_eq]
  rintro ⟨⟨-, h1⟩, h2⟩
  omega

lemma mem_of_mem_dff {metrics : List String} {a b : Int} {r : Record}
    (h : r ∈ dff_of metrics a b) : r ∈ df :=
  (List.mem_filter.mp h).1

lemma seriesFor_nil (comp metric : String) : seriesFor [] comp metric = [] := rfl

lemma seriesFor_eq_nil {rs : List Record} {c : String} (m : String)
    (h : ∀ r ∈ rs, r.company ≠ c) : seriesFor rs c m = [] := by
  unfold seriesFor
  have hf : rs.filter (fun r => r.metric == m && r.company == c) = [] := by
    rw [List.filter_eq_nil_iff]
    intro r hr
    simp only [Bool.and_eq_true, beq_iff_eq]
    rintro ⟨-, h2⟩
    exact h r hr h2
  rw [hf]
  rfl

lemma lookup_metric_groups_cases {g : String} {metrics : List String}
    (h : List.lookup g metric_groups = some metrics) :
    metrics = ["Current Ratio", "Quick Ratio"] ∨
    metrics = ["Gross Profit Margin", "Net Profit Margin"] ∨
    metrics = ["Inventory Turnover", "Asset Turnover", "Trade Receivable Turnover"] := by
  simp only [metric_groups, List.lookup] at h
  split at h
  · exact Or.inl (Option.some.inj h).symm
  · split at h
    · exact Or.inr (Or.inl (Option.some.inj h).symm)
    · split at h
      · exact Or.inr (Or.inr (Option.some.inj h).symm)
      · cases h

lemma lookup_metric_groups_none {g : String}
    (h : g ∉ ["liquidity", "profitability", "turnover"]) :
    List.lookup g metric_groups = none := by
  simp only [List.mem_cons, List.not_mem_nil, or_false, not_or] at h
  obtain ⟨h1, h2, h3⟩ := h
  have e1 : (g == "liquidity") = false := beq_eq_false_iff_ne.mpr h1
  have e2 : (g == "profitability") = false := beq_eq_false_iff_ne.mpr h2
  have e3 : (g == "turnover") = false := beq_eq_false_iff_ne.mpr h3
  simp [metric_groups, List.lookup, e1, e2, e3]

lemma update_charts_eq (company group : String) (primary : String)
    (rest : List String) (yr : Int × Int)
    (h : List.lookup group metric_groups = some (primary :: rest)) :
    update_charts company group yr =
      some (buildCharts company (primary :: rest) primary
        (dff_of (primary :: rest) yr.1 yr.2)) := by
  unfold update_charts
  rw [h]
  rfl

lemma update_charts_inv {c g : String} {yr : Int × Int} {out : ChartsOutput}
    (h : update_charts c g yr = some out) :
    ∃ primary rest, List.lookup g metric_groups = some (primary :: rest) ∧
      out = buildCharts c (primary :: rest) primary
        (dff_of (primary :: rest) yr.1 yr.2) := by
  unfold update_charts at h
  cases hl : List.lookup g metric_groups with
  | none => rw [hl] at h; cases h
  | some metrics =>
    rw [hl] at h
    cases metrics with
    | nil => cases h
    | cons primary rest => exact ⟨primary, rest, rfl, (Option.some.inj h).symm⟩

lemma buildCharts_empty (company : String) (metrics : List String) (primary : String) :
    (∀ t ∈ (buildCharts company metrics primary []).mainTraces, t.x = [] ∧ t.y = []) ∧
    (∀ t ∈ (buildCharts company metrics primary []).sparkTraces, t.x = [] ∧ t.y = []) ∧
    (buildCharts company metrics primary []).table.index = [] := by
  refine ⟨?_, ?_, rfl⟩
  · intro t ht
    simp only [buildCharts, buildMainTraces] at ht
    split at ht
    · simp only [List.mem_flatMap, List.mem_map, List.mem_cons,
        List.not_mem_nil, or_false] at ht
      obtain ⟨m, -, comp, hcomp, rfl⟩ := ht
      rcases hcomp with rfl | rfl <;> exact ⟨rfl, rfl⟩
    · simp only [List.mem_map] at ht
      obtain ⟨m, -, rfl⟩ := ht
      exact ⟨rfl, rfl⟩
  · intro t ht
    simp only [buildCharts, buildSparkTraces] at ht
    split at ht
    · simp only [List.mem_map, List.mem_cons, List.not_mem_nil, or_false] at ht
      obtain ⟨comp, hcomp, rfl⟩ := ht
      rcases hcomp with rfl | rfl <;> exact ⟨rfl, rfl⟩
    · simp only [List.mem_singleton] at ht
      subst ht
      exact ⟨rfl, rfl⟩

lemma pivotCell_eq_lookup {rs : List Record}
    (h : (rs.map fun r => (r.yearLabel, r.company, r.metric)).Nodup)
    (yl comp metric : String) :
    pivotCell rs yl comp metric = pivotCellLookup rs yl comp metric := by
  induction rs with
  | nil => rfl
  | cons a as ih =>
    simp only [List.map_cons, List.nodup_cons] at h
    obtain ⟨hk, ht⟩ := h
    by_cases hp : (a.yearLabel == yl && a.company == comp && a.metric == metric) = true
    · have htail :
          as.filter (fun r => r.yearLabel == yl && r.company == comp && r.metric == metric)
            = [] := by
        rw [List.filter_eq_nil_iff]
        intro r hr hmatch
        apply hk
        rw [List.mem_map]
        refine ⟨r, hr, ?_⟩
        simp only [Bool.and_eq_true, beq_iff_eq] at hp hmatch
        rw [hmatch.1.1, hmatch.1.2, hmatch.2, hp.1.1, hp.1.2, hp.2]
      unfold pivotCell pivotCellLookup
      simp [List.filter_cons, List.find?_cons, hp, htail]
    · rw [Bool.not_eq_true] at hp
      unfold pivotCell pivotCellLookup
      simp only [List.filter_cons, List.find?_cons, hp, Bool.false_eq_true, if_false]
      exact ih ht

/-! ## Claim theorems -/

/-- C9: the startup dataset build produces exactly 70 records
(2 companies × 7 metrics × 5 years), in the deterministic order
"outer loop over the years ascending, inner loop over Dixon's metrics in
insertion order then Honeywell's metrics in insertion order", and every
(company, metric, year) triple is unique in the resulting table. -/
theorem C9_dataset_build :
    rows.length = 70 ∧
    dixon.length = 7 ∧ honeywell.length = 7 ∧ year_numbers.length = 5 ∧
    rows.map (fun r => (r.company, r.metric, r.year)) =
      (year_numbers.flatMap fun y =>
        (dixon.map fun kv => ("Dixon", kv.1, y)) ++
        (honeywell.map fun kv => ("Honeywell", kv.1, y))) ∧
    (rows.map fun r => (r.company, r.metric, r.year)).Nodup := by
  refine ⟨?_, ?_, ?_, ?_, ?_, ?_⟩ <;> with_unfolding_all decide

/-- C10: on any record set produced by the filter of `update_charts`
(any metric list and year range), the mean-aggregating `pivot_table` cell
(`pivotCell`, pandas's default `aggfunc='mean'`) coincides with the plain
one-record lookup pivot (`pivotCellLookup`) at every
(yearLabel, company, metric) cell — because the dataset build guarantees
at most one underlying record per triple. -/
theorem C10_pivot_mean_is_lookup :
    ∀ (metrics : List String) (yr_min yr_max : Int) (yl comp metric : String),
      pivotCell (dff_of metrics yr_min yr_max) yl comp metric =
        pivotCellLookup (dff_of metrics yr_min yr_max) yl comp metric := by
  intro metrics a b yl comp metric
  apply pivotCell_eq_lookup
  exact List.Nodup.sublist ((List.filter_sublist df).map _) df_keys_nodup

/-- C5: the KPI-card recomputation depends on the company selection only:
for a fixed company, the KPI component of the dashboard recomputation is
unchanged under any change of metric group and/or year range
(`update_kpis` has the company dropdown as its only Dash input and reads
the full unfiltered table through `kpi_latest df`). -/
theorem C5_kpis_depend_only_on_company :
    ∀ (company g1 g2 : String) (yr1 yr2 : Int × Int),
      (dashboard company g1 yr1).1 = (dashboard company g2 yr2).1 := by
  intro company g1 g2 yr1 yr2
  rfl

/-- C2: for every (company, metric) pair present in the dataset,
`kpi_latest` returns the value of the maximum-year record, which for this
dataset is the year-2025 record's value; the two literal examples hold;
and for a pair with no matching records it returns `none`, not an error. -/
theorem C2_kpi_latest :
    (∀ c m : String, (∃ r ∈ df, r.company = c ∧ r.metric = m) →
      kpi_latest df c m =
        (df.find? fun r2 =>
          r2.company == c && r2.metric == m && r2.year == 2025).map (·.value)) ∧
    kpi_latest df "Dixon" "Current Ratio" = some 1.33 ∧
    kpi_latest df "Honeywell" "Net Profit Margin" = some 12.49 ∧
    (∀ c m : String, (∀ r ∈ df, ¬(r.company = c ∧ r.metric = m)) →
      kpi_latest df c m = none) := by
  refine ⟨?_, ?_, ?_, fun c m h => kpi_latest_none h⟩
  · rintro c m ⟨r, hr, rfl, rfl⟩
    have hp := pairs_complete r hr
    simp only [allPairs, List.mem_cons, List.not_mem_nil, or_false] at hp
    rcases hp with hp|hp|hp|hp|hp|hp|hp|hp|hp|hp|hp|hp|hp|hp <;>
      (rw [Prod.mk.injEq] at hp; rw [hp.1, hp.2]; with_unfolding_all rfl)
  · with_unfolding_all rfl
  · with_unfolding_all rfl

/-- C2 witness: the universal part of `C2_kpi_latest` applied to the
concrete pair (Dixon, Current Ratio), whose presence in the dataset is
witnessed by the first dataset record. -/
theorem C2_witness :
    kpi_latest df "Dixon" "Current Ratio" =
      (df.find? fun r2 =>
        r2.company == "Dixon" && r2.metric == "Current Ratio" &&
        r2.year == 2025).map (·.value) :=
  C2_kpi_latest.1 "Dixon" "Current Ratio"
    ⟨{ company := "Dixon", metric := "Current Ratio", value := 1.17,
       yearLabel := "Mar-21", year := 2021 },
     by with_unfolding_all decide, rfl, rfl⟩

/-- C3: the record filter of `update_charts` keeps exactly the records
whose metric lies in the selected metric list and whose year lies in
[yr_min, yr_max] inclusive; on group "liquidity" with the full range it
keeps exactly 20 records; and on every group with range [2023, 2024] it
keeps exactly 2 years × (metrics in group) × 2 companies records. -/
theorem C3_filter :
    (∀ (metrics : List String) (yr_min yr_max : Int) (r : Record),
      r ∈ dff_of metrics yr_min yr_max ↔
        r ∈ df ∧ r.metric ∈ metrics ∧ yr_min ≤ r.year ∧ r.year ≤ yr_max) ∧
    (filterByGroupAndRange "liquidity" 2021 2025).map List.length = some 20 ∧
    (∀ gm ∈ metric_groups, (dff_of gm.2 2023 2024).length = 2 * gm.2.length * 2) := by
  refine ⟨?_, ?_, ?_⟩
  · intro metrics a b r
    unfold dff_of
    rw [List.mem_filter]
    simp only [Bool.and_eq_true, decide_eq_true_eq, List.contains, List.elem_iff,
      and_assoc]
  · with_unfolding_all decide
  · with_unfolding_all decide

/-- C3 witness: the membership characterisation applied to the first
dataset record on the liquidity metrics and the full year range, and the
per-group count applied to the liquidity group. -/
theorem C3_witness :
    ({ company := "Dixon", metric := "Current Ratio", value := 1.17,
       yearLabel := "Mar-21", year := 2021 } : Record) ∈
        dff_of ["Current Ratio", "Quick Ratio"] 2021 2025 ∧
    (dff_of ["Current Ratio", "Quick Ratio"] 2023 2024).length =
      2 * (["Current Ratio", "Quick Ratio"] : List String).length * 2 :=
  ⟨(C3_filter.1 ["Current Ratio", "Quick Ratio"] 2021 2025 _).mpr
      (by refine ⟨?_, ?_, ?_, ?_⟩ <;> with_unfolding_all decide),
   C3_filter.2.2 ("liquidity", ["Current Ratio", "Quick Ratio"])
      (by with_unfolding_all decide)⟩

/-- C4: pivoting the records filtered on group "liquidity" over the full
year range yields a wide table in which the cell
(yearLabel "Mar-23", Dixon, "Quick Ratio") holds 1.27, and — in general —
a pivot cell is absent exactly when no underlying record has the cell's
(yearLabel, company, metric) combination: absent cells are never
zero-filled. -/
theorem C4_pivot :
    (∃ out, update_charts "Both" "liquidity" (2021, 2025) = some out ∧
      out.table.cell "Mar-23" ("Dixon", "Quick Ratio") = some 1.27) ∧
    (∀ (rs : List Record) (yl comp metric : String),
      pivotCell rs yl comp metric = none ↔
        ∀ r ∈ rs, ¬(r.yearLabel = yl ∧ r.company = comp ∧ r.metric = metric)) := by
  constructor
  · refine ⟨_, update_charts_eq "Both" "liquidity" "Current Ratio" ["Quick Ratio"]
      (2021, 2025) rfl, ?_⟩
    with_unfolding_all decide
  · intro rs yl comp metric
    constructor
    · intro h r hr hmatch
      have hmem : r ∈ rs.filter
          (fun r => r.yearLabel == yl && r.company == comp && r.metric == metric) :=
        List.mem_filter.mpr ⟨hr, by
          simp only [Bool.and_eq_true, beq_iff_eq]
          exact ⟨⟨hmatch.1, hmatch.2.1⟩, hmatch.2.2⟩⟩
      unfold pivotCell at h
      rcases hf : rs.filter
          (fun r => r.yearLabel == yl && r.company == comp && r.metric == metric)
        with - | ⟨a, as⟩
      · rw [hf] at hmem; cases hmem
      · rw [hf] at h; simp at h
    · intro h
      have hf : rs.filter
          (fun r => r.yearLabel == yl && r.company == comp && r.metric == metric)
            = [] := by
        rw [List.filter_eq_nil_iff]
        intro r hr
        simp only [Bool.and_eq_true, beq_iff_eq]
        rintro ⟨⟨h1, h2⟩, h3⟩
        exact h r hr ⟨h1, h2, h3⟩
      unfold pivotCell
      simp [hf]

/-- C4 witness: the absent-cell characterisation applied to the empty
record set at a concrete cell. -/
theorem C4_witness : pivotCell [] "Mar-23" "Dixon" "Quick Ratio" = none :=
  (C4_pivot.2 [] "Mar-23" "Dixon" "Quick Ratio").mpr (by simp)

/-- C1 counterexample: invoked with the invalid metric-group key
"solvency", `update_charts` does not produce empty series and an empty
table — it produces no output at all, because the dict subscript
`metric_groups[group]` on line 180 raises `KeyError` (modelled by
`none`). -/
theorem C1_counterexample : update_charts "Both" "solvency" (2021, 2025) = none := by
  with_unfolding_all rfl

/-- C1 (amended): a company or metric absent from the dataset gives empty
query results rather than a failure — `kpi_latest` returns `none`, and an
unknown company makes every chart series empty — but a metric-group key
outside the three fixed keys makes `update_charts` fail with a `KeyError`
at the `metric_groups[group]` lookup (modelled by `none`) instead of
returning empty results. -/
theorem C1_amended :
    (∀ g : String, g ∉ ["liquidity", "profitability", "turnover"] →
      ∀ (company : String) (yr : Int × Int), update_charts company g yr = none) ∧
    (∀ c m : String, (∀ r ∈ df, ¬(r.company = c ∧ r.metric = m)) →
      kpi_latest df c m = none) ∧
    (∀ company : String, company ≠ "Both" → company ∉ ["Dixon", "Honeywell"] →
      ∀ (g : String) (yr : Int × Int) (out : ChartsOutput),
        update_charts company g yr = some out →
        (∀ t ∈ out.mainTraces, t.x = [] ∧ t.y = []) ∧
        (∀ t ∈ out.sparkTraces, t.x = [] ∧ t.y = [])) := by
  refine ⟨?_, fun c m h => kpi_latest_none h, ?_⟩
  · intro g hg company yr
    unfold update_charts
    rw [lookup_metric_groups_none hg]
  · intro company hne hnotin g yr out hout
    obtain ⟨primary, rest, hlk, rfl⟩ := update_charts_inv hout
    have hc : ∀ r ∈ dff_of (primary :: rest) yr.1 yr.2, r.company ≠ company := by
      intro r hr hcon
      subst hcon
      rcases companies_complete r (mem_of_mem_dff hr) with h | h <;>
        (rw [h] at hnotin; simp at hnotin)
    have hbeq : (company == "Both") = false := beq_eq_false_iff_ne.mpr hne
    constructor
    · intro t ht
      simp only [buildCharts, buildMainTraces, hbeq, Bool.false_eq_true,
        if_false, List.mem_map] at ht
      obtain ⟨m, -, rfl⟩ := ht
      rw [seriesFor_eq_nil m hc]
      exact ⟨rfl, rfl⟩
    · intro t ht
      simp only [buildCharts, buildSparkTraces, hbeq, Bool.false_eq_true,
        if_false, List.mem_singleton] at ht
      subst ht
      rw [seriesFor_eq_nil primary hc]
      exact ⟨rfl, rfl⟩

/-- C1 witness: the amended claim's group-key part applied to the unknown
key "solvency" at a concrete selection. -/
theorem C1_witness : update_charts "Both" "solvency" (2020, 2024) = none :=
  C1_amended.1 "solvency" (by decide) "Both" (2020, 2024)

lemma kpiCard_metric (company metric : String) :
    (kpiCard company metric).metric = metric := by
  unfold kpiCard
  split <;> rfl

lemma kpiCardBoth_CR : kpiCard "Both" "Current Ratio" =
    { metric := "Current Ratio", value := .both "1.33" "3.45" } := by
  with_unfolding_all decide

lemma kpiCardBoth_QR : kpiCard "Both" "Quick Ratio" =
    { metric := "Quick Ratio", value := .both "1.01" "3.24" } := by
  with_unfolding_all decide

lemma kpiCardBoth_GPM : kpiCard "Both" "Gross Profit Margin" =
    { metric := "Gross Profit Margin", value := .both "3.25" "12.65" } := by
  with_unfolding_all decide

lemma kpiCardBoth_NPM : kpiCard "Both" "Net Profit Margin" =
    { metric := "Net Profit Margin", value := .both "2.82" "12.49" } := by
  with_unfolding_all decide

lemma kpiCardBoth_IT : kpiCard "Both" "Inventory Turnover" =
    { metric := "Inventory Turnover", value := .both "12.69" "17.66" } := by
  with_unfolding_all decide

lemma kpiCardBoth_AT : kpiCard "Both" "Asset Turnover" =
    { metric := "Asset Turnover", value := .both "2.30" "1.10" } := by
  with_unfolding_all decide

/-- C6: for every company selection `update_kpis` builds exactly one card
per metric of the fixed 6-element list (in order, `Trade Receivable
Turnover` excluded); with `company = Both` every card carries both
companies' latest values formatted to exactly 2 decimal places (in
particular Gross Profit Margin shows Dixon 3.25 and Honeywell 12.65); and
for a company with no data every card carries the placeholder dash rather
than failing. -/
theorem C6_kpi_cards :
    (∀ company : String,
      (update_kpis company).map (·.metric) = kpis ∧ kpis.length = 6) ∧
    update_kpis "Both" =
      [{ metric := "Current Ratio", value := .both "1.33" "3.45" },
       { metric := "Quick Ratio", value := .both "1.01" "3.24" },
       { metric := "Gross Profit Margin", value := .both "3.25" "12.65" },
       { metric := "Net Profit Margin", value := .both "2.82" "12.49" },
       { metric := "Inventory Turnover", value := .both "12.69" "17.66" },
       { metric := "Asset Turnover", value := .both "2.30" "1.10" }] ∧
    (∀ company : String, company ≠ "Both" → (∀ r ∈ df, r.company ≠ company) →
      update_kpis company = kpis.map fun m => { metric := m, value := .single "—" }) := by
  refine ⟨?_, ?_, ?_⟩
  · intro company
    refine ⟨?_, rfl⟩
    rw [update_kpis, List.map_map]
    exact (List.map_congr_left fun m _ => kpiCard_metric company m).trans
      (List.map_id kpis)
  · rw [update_kpis]
    simp only [kpis, List.map_cons, List.map_nil,
      kpiCardBoth_CR, kpiCardBoth_QR, kpiCardBoth_GPM,
      kpiCardBoth_NPM, kpiCardBoth_IT, kpiCardBoth_AT]
  · intro company hne h
    rw [update_kpis]
    apply List.map_congr_left
    intro m _
    unfold kpiCard
    rw [if_neg (by simp [hne])]
    rw [show kpi_latest df company m = none from
      kpi_latest_none fun r hr hcm => h r hr hcm.1]
    rfl

/-- C6 witness: the missing-data part of `C6_kpi_cards` applied to a
company absent from the dataset. -/
theorem C6_witness :
    update_kpis "Acme" = kpis.map fun m => { metric := m, value := .single "—" } :=
  C6_kpi_cards.2.2 "Acme" (by decide) (by with_unfolding_all decide)

/-- C7: for every selected group and every year range with
yearMin > yearMax, `update_charts` succeeds (no error) and yields an
empty series for every metric of the group, an empty sparkline, and a
pivoted data table with no data rows. -/
theorem C7_empty_year_range :
    ∀ (company group primary : String) (rest : List String) (yr_min yr_max : Int),
      List.lookup group metric_groups = some (primary :: rest) →
      yr_max < yr_min →
      ∃ out, update_charts company group (yr_min, yr_max) = some out ∧
        (∀ t ∈ out.mainTraces, t.x = [] ∧ t.y = []) ∧
        (∀ t ∈ out.sparkTraces, t.x = [] ∧ t.y = []) ∧
        out.table.index = [] := by
  intro company group primary rest a b hlk hab
  have heq := update_charts_eq company group primary rest (a, b) hlk
  rw [show dff_of (primary :: rest) (a, b).1 (a, b).2 = [] from
    dff_of_empty _ hab] at heq
  exact ⟨_, heq, (buildCharts_empty company _ primary).1,
    (buildCharts_empty company _ primary).2.1,
    (buildCharts_empty company _ primary).2.2⟩

/-- C7 witness: `C7_empty_year_range` at the concrete selection
(Both, liquidity, [2025, 2021]). -/
theorem C7_witness :
    ∃ out, update_charts "Both" "liquidity" (2025, 2021) = some out ∧
      (∀ t ∈ out.mainTraces, t.x = [] ∧ t.y = []) ∧
      (∀ t ∈ out.sparkTraces, t.x = [] ∧ t.y = []) ∧
      out.table.index = [] :=
  C7_empty_year_range "Both" "liquidity" "Current Ratio" ["Quick Ratio"]
    2025 2021 rfl (by decide)

lemma map_name_flatMap (metrics : List String) (dff : List Record) :
    ((metrics.flatMap fun metric => ["Dixon", "Honeywell"].map fun comp =>
        barTrace (comp ++ " — " ++ metric) (seriesFor dff comp metric)).map (·.name)) =
      metrics.flatMap fun m => ["Dixon — " ++ m, "Honeywell — " ++ m] := by
  rw [List.map_flatMap]
  rfl

lemma map_name_map (metrics : List String) (company : String) (dff : List Record) :
    ((metrics.map fun metric =>
        barTrace metric (seriesFor dff company metric)).map (·.name)) = metrics := by
  rw [List.map_map]
  exact (List.map_congr_left fun m _ => rfl).trans (List.map_id _)

/-- C8: the sparkline is always built from the first metric of the
selected group's fixed ordered list (liquidity → Current Ratio,
profitability → Gross Profit Margin, turnover → Inventory Turnover), and
every main-chart series is named "Company — Metric" when both companies
are shown and just "Metric" otherwise. -/
theorem C8_spark_and_naming :
    (∀ (company : String) (yr : Int × Int) (out : ChartsOutput),
      update_charts company "liquidity" yr = some out →
        out.sparkTitle = "Trend — Current Ratio" ∧
        out.sparkTraces = buildSparkTraces company "Current Ratio"
          (dff_of ["Current Ratio", "Quick Ratio"] yr.1 yr.2)) ∧
    (∀ (company : String) (yr : Int × Int) (out : ChartsOutput),
      update_charts company "profitability" yr = some out →
        out.sparkTitle = "Trend — Gross Profit Margin" ∧
        out.sparkTraces = buildSparkTraces company "Gross Profit Margin"
          (dff_of ["Gross Profit Margin", "Net Profit Margin"] yr.1 yr.2)) ∧
    (∀ (company : String) (yr : Int × Int) (out : ChartsOutput),
      update_charts company "turnover" yr = some out →
        out.sparkTitle = "Trend — Inventory Turnover" ∧
        out.sparkTraces = buildSparkTraces company "Inventory Turnover"
          (dff_of ["Inventory Turnover", "Asset Turnover", "Trade Receivable Turnover"]
            yr.1 yr.2)) ∧
    (∀ (group primary : String) (rest : List String) (yr : Int × Int)
        (out : ChartsOutput),
      List.lookup group metric_groups = some (primary :: rest) →
      update_charts "Both" group yr = some out →
        out.mainTraces.map (·.name) =
          (primary :: rest).flatMap fun m => ["Dixon — " ++ m, "Honeywell — " ++ m]) ∧
    (∀ (company group primary : String) (rest : List String) (yr : Int × Int)
        (out : ChartsOutput),
      company ≠ "Both" →
      List.lookup group metric_groups = some (primary :: rest) →
      update_charts company group yr = some out →
        out.mainTraces.map (·.name) = primary :: rest) := by
  refine ⟨?_, ?_, ?_, ?_, ?_⟩
  · intro company yr out h
    rw [update_charts_eq company "liquidity" "Current Ratio" ["Quick Ratio"] yr rfl] at h
    obtain rfl := Option.some.inj h
    exact ⟨rfl, rfl⟩
  · intro company yr out h
    rw [update_charts_eq company "profitability" "Gross Profit Margin"
      ["Net Profit Margin"] yr rfl] at h
    obtain rfl := Option.some.inj h
    exact ⟨rfl, rfl⟩
  · intro company yr out h
    rw [update_charts_eq company "turnover" "Inventory Turnover"
      ["Asset Turnover", "Trade Receivable Turnover"] yr rfl] at h
    obtain rfl := Option.some.inj h
    exact ⟨rfl, rfl⟩
  · intro group primary rest yr out hlk h
    rw [update_charts_eq "Both" group primary rest yr hlk] at h
    obtain rfl := Option.some.inj h
    simp only [buildCharts, buildMainTraces, beq_self_eq_true, if_true]
    exact map_name_flatMap (primary :: rest) _
  · intro company group primary rest yr out hne hlk h
    rw [update_charts_eq company group primary rest yr hlk] at h
    obtain rfl := Option.some.inj h
    have hbeq : (company == "Both") = false := beq_eq_false_iff_ne.mpr hne
    simp only [buildCharts, buildMainTraces, hbeq, Bool.false_eq_true, if_false]
    exact map_name_map (primary :: rest) company _

/-- C8 witness: the liquidity part of `C8_spark_and_naming` at the
concrete selection (Both, liquidity, [2021, 2025]). -/
theorem C8_witness :
    (buildCharts "Both" ["Current Ratio", "Quick Ratio"] "Current Ratio"
        (dff_of ["Current Ratio", "Quick Ratio"] 2021 2025)).sparkTitle =
      "Trend — Current Ratio" ∧
    (buildCharts "Both" ["Current Ratio", "Quick Ratio"] "Current Ratio"
        (dff_of ["Current Ratio", "Quick Ratio"] 2021 2025)).sparkTraces =
      buildSparkTraces "Both" "Current Ratio"
        (dff_of ["Current Ratio", "Quick Ratio"] 2021 2025) :=
  C8_spark_and_naming.1 "Both" (2021, 2025) _
    (update_charts_eq "Both" "liquidity" "Current Ratio" ["Quick Ratio"]
      (2021, 2025) rfl)
